import Mathlib

/-!
Verification of the security-group reconciliation logic of the
`edgecenter_instance_port_security` Terraform resource
(`utils_port_security.go` and the CRUD flows of
`data_source_edgecenter_storage_s3.go`).

The Go source operates on `schema.ResourceData` (string-keyed attribute
access) and a cloud API client.  Here the relevant attributes are embedded
as a record `ResourceData` holding both the old state value and the new
desired value of each attribute (as the source sees them through
`GetChange` / `HasChange`), the external API responses as a record `Env`,
and every CRUD flow returns the ordered list of API calls it issued
together with an `Except` outcome.  Pre-apply fetches are modelled as
always succeeding (their failure paths merely propagate the error verbatim
and decide none of the claims); the two re-fetches inside
`checkPortSecurityChangesIsApplied` may fail, mirroring the source's
distinction between hard API errors and the convergence sentinel.
-/

deriving instance DecidableEq for Except

/-- A security group as returned by the cloud API: an opaque ID and a
human-readable name (the attach/detach API addresses groups by name). -/
structure SecurityGroup where
  id : String
  name : String
deriving DecidableEq, Repr

/-- Response of `utilV2.InstanceNetworkPortByID`: the port together with
its attached security groups. -/
structure InstancePort where
  securityGroups : List SecurityGroup
deriving DecidableEq, Repr

/-- Response of `utilV2.InstanceNetworkInterfaceByID`: the interface with
its `PortSecurityEnabled` flag. -/
structure InstanceIfacePort where
  portSecurityEnabled : Bool
deriving DecidableEq, Repr

/-- The attributes of the `instance_port_security` resource data relevant
to the reconciliation flows.  `...Old` fields are the previous state
values (first component of `GetChange`); the unsuffixed fields are the
desired (new) values returned by `Get`.  Terraform's `schema.Set` of
strings is embedded as `Finset String`. -/
structure ResourceData where
  instanceID : String
  portID : String
  portSecurityDisabledOld : Bool
  portSecurityDisabled : Bool
  enforceOld : Bool
  enforce : Bool
  securityGroupIDsOld : Finset String
  securityGroupIDs : Finset String
  allSecurityGroupIDs : Finset String
deriving DecidableEq

/-- Outcome classification mirroring the Go error values:
`invalidAttrs` for the `validatePortSecAttrs` diagnostics, `external` for
errors propagated from the cloud API or from ID-to-name resolution, and
`notImplemented` for the distinguished sentinel
`InstancePortSecNotImplementedErr` (`instance_port_security are not
impelemented yet`). -/
inductive PortSecErr where
  | invalidAttrs
  | external (msg : String)
  | notImplemented
deriving DecidableEq, Repr

/-- An external API call issued by a flow, recorded in issue order. -/
inductive ApiCall where
  | getInterfacePort (instanceID portID : String)
  | getNetworkPort (instanceID portID : String)
  | listGroupsByIDs (ids : Finset String)
  | enablePortSecurity (portID : String)
  | disablePortSecurity (portID : String)
  | assignGroups (instanceID portID : String) (names : Finset String)
  | unassignGroups (instanceID portID : String) (names : Finset String)
deriving DecidableEq

/-- Responses of the external cloud API during one reconciliation run.
`ifacePort` and `port` are the pre-apply observations; `checkPortFetch`
and `checkIfaceFetch` are the (possibly failing) re-fetches performed by
the convergence check; `knownGroups` backs the ID-to-name resolution. -/
structure Env where
  ifacePort : InstanceIfacePort
  port : InstancePort
  knownGroups : List SecurityGroup
  checkPortFetch : Except String InstancePort
  checkIfaceFetch : Except String InstanceIfacePort

/-- The set of group IDs attached to a port as observed from the API
(the source builds `sgsListFromAPI` from `instancePort.SecurityGroups`
and turns it into a `schema.Set`). -/
def observedGroupIDs (p : InstancePort) : Finset String :=
  (p.securityGroups.map SecurityGroup.id).toFinset

/-- `validatePortSecAttrs` (`utils_port_security.go`, lines 14-32): the
input is rejected when `port_security_disabled` is true and the
`security_group_ids` attribute is present (Terraform's `GetOk` reports a
set as present iff it is nonempty).  Returns `true` iff the diagnostics
contain an error. -/
def validatePortSecAttrs (d : ResourceData) : Bool :=
  d.portSecurityDisabled && decide (d.securityGroupIDs ≠ ∅)

/-- Core of `checkPortSecurityChangesIsApplied` (`utils_port_security.go`,
lines 50-71), once both fetches succeeded: build the observed group set,
compute `intersectionSet = observed ∩ desired` and
`intersectionDiff = intersectionSet \ desired`, and return the sentinel
`InstancePortSecNotImplementedErr` when `intersectionDiff` is nonempty,
when `enforce` holds and the desired cardinality differs from the
intersection cardinality, or when the observed `PortSecurityEnabled` flag
equals the desired `port_security_disabled` flag. -/
def checkPortSecurityLogic (d : ResourceData) (instancePort : InstancePort)
    (instanceIfacePort : InstanceIfacePort) : Except PortSecErr Unit :=
  let sgsSetFromAPI := observedGroupIDs instancePort
  let sgsSet := d.securityGroupIDs
  let intersectionSet := sgsSetFromAPI ∩ sgsSet
  let intersectionDiff := intersectionSet \ sgsSet
  if intersectionDiff.card ≠ 0 then Except.error PortSecErr.notImplemented
  else if d.enforce ∧ sgsSet.card ≠ intersectionSet.card then
    Except.error PortSecErr.notImplemented
  else if instanceIfacePort.portSecurityEnabled = d.portSecurityDisabled then
    Except.error PortSecErr.notImplemented
  else Except.ok ()

/-- `checkPortSecurityChangesIsApplied` (`utils_port_security.go`,
lines 34-72): re-fetch the port and the interface, then run
`checkPortSecurityLogic`; a fetch failure is propagated as an external
error, distinct from the sentinel. -/
def checkPortSecurityChangesIsApplied (d : ResourceData) (env : Env) :
    List ApiCall × Except PortSecErr Unit :=
  match env.checkPortFetch with
  | Except.error e =>
    ([ApiCall.getNetworkPort d.instanceID d.portID],
      Except.error (PortSecErr.external e))
  | Except.ok p =>
    match env.checkIfaceFetch with
    | Except.error e =>
      ([ApiCall.getNetworkPort d.instanceID d.portID,
        ApiCall.getInterfacePort d.instanceID d.portID],
        Except.error (PortSecErr.external e))
    | Except.ok ifc =>
      ([ApiCall.getNetworkPort d.instanceID d.portID,
        ApiCall.getInterfacePort d.instanceID d.portID],
        checkPortSecurityLogic d p ifc)

/-- Modelled from the spec: the collaborator lookup
`utilV2.SecurityGroupListByIDs` / `ListGroupsByID` used by the helper
functions missing from `src/` — it resolves a set of group IDs to the
corresponding names and "must fail if any ID is unknown". -/
def resolveGroupNames (known : List SecurityGroup) (ids : Finset String) :
    Except String (Finset String) :=
  if ids.filter (fun i => known.any (fun g => g.id == i) = false) = ∅ then
    Except.ok
      (((known.filter (fun g => decide (g.id ∈ ids))).map SecurityGroup.name).toFinset)
  else Except.error "unknown security group id"

/-- Modelled from the spec: `removeSecurityGroupsFromInstancePort` is
repository code not under `src/`.  Per the spec it resolves each ID to a
name via the group-listing API — a resolution failure aborts before the
mutation — and then issues a single detach call carrying all resolved
names for the port.  An empty ID set resolves trivially and issues no
call. -/
def removeSecurityGroupsFromInstancePort (known : List SecurityGroup)
    (instanceID portID : String) (ids : Finset String) :
    List ApiCall × Except PortSecErr Unit :=
  if ids = ∅ then ([], Except.ok ())
  else
    match resolveGroupNames known ids with
    | Except.error e =>
      ([ApiCall.listGroupsByIDs ids], Except.error (PortSecErr.external e))
    | Except.ok names =>
      ([ApiCall.listGroupsByIDs ids,
        ApiCall.unassignGroups instanceID portID names], Except.ok ())

/-- Modelled from the spec: `AssignSecurityGroupsToInstancePort` is
repository code not under `src/`.  Per the spec it resolves each ID to a
name via the group-listing API — a resolution failure aborts before the
mutation — and then issues a single attach call carrying all resolved
names for the port.  An empty ID set resolves trivially and issues no
call. -/
def AssignSecurityGroupsToInstancePort (known : List SecurityGroup)
    (instanceID portID : String) (ids : Finset String) :
    List ApiCall × Except PortSecErr Unit :=
  if ids = ∅ then ([], Except.ok ())
  else
    match resolveGroupNames known ids with
    | Except.error e =>
      ([ApiCall.listGroupsByIDs ids], Except.error (PortSecErr.external e))
    | Except.ok names =>
      ([ApiCall.listGroupsByIDs ids,
        ApiCall.assignGroups instanceID portID names], Except.ok ())

/-- The removal set computed by `resourceInstancePortSecurityUpdate`
(`data_source_edgecenter_storage_s3.go`, lines 343-349): under `enforce`
the stored `all_security_group_ids` minus the new desired set, otherwise
the old desired set minus the new desired set. -/
def updateSgsToRemove (d : ResourceData) : Finset String :=
  if d.enforce then d.allSecurityGroupIDs \ d.securityGroupIDs
  else d.securityGroupIDsOld \ d.securityGroupIDs

/-- The attach set computed by `resourceInstancePortSecurityUpdate`
(line 356): the new desired set minus the old desired set. -/
def updateSgsToAssign (d : ResourceData) : Finset String :=
  d.securityGroupIDs \ d.securityGroupIDsOld

/-- Sequencing of two call-emitting steps: the second runs only when the
first succeeded; traces are concatenated. -/
def seqCalls (a : List ApiCall × Except PortSecErr Unit)
    (f : Unit → List ApiCall × Except PortSecErr Unit) :
    List ApiCall × Except PortSecErr Unit :=
  match a with
  | (c, Except.error e) => (c, Except.error e)
  | (c, Except.ok _) => (c ++ (f ()).1, (f ()).2)

/-- `resourceInstancePortSecurityRead` (lines 257-292): fetches the
interface and the port and stores the observed values into state.  State
writes and fetch failures are not modelled; only the issued calls matter
to the claims. -/
def resourceInstancePortSecurityRead (d : ResourceData) :
    List ApiCall × Except PortSecErr Unit :=
  ([ApiCall.getInterfacePort d.instanceID d.portID,
    ApiCall.getNetworkPort d.instanceID d.portID], Except.ok ())

/-- The `switch` statement shared by the create path (lines 200-211) and
the update path (lines 316-327): disable port security when it is desired
disabled but observed enabled, enable it when desired enabled but
observed disabled, otherwise do nothing. -/
def toggleCallsFor (d : ResourceData) (env : Env) : List ApiCall :=
  if d.portSecurityDisabled && env.ifacePort.portSecurityEnabled then
    [ApiCall.disablePortSecurity d.portID]
  else if !d.portSecurityDisabled && !env.ifacePort.portSecurityEnabled then
    [ApiCall.enablePortSecurity d.portID]
  else []

/-- The toggle block of the update path (lines 310-328): only when the
`disabled` flag changed (`HasChange`), fetch the interface and run the
toggle switch. -/
def updateToggleCalls (d : ResourceData) (env : Env) : List ApiCall :=
  if d.portSecurityDisabledOld != d.portSecurityDisabled then
    ApiCall.getInterfacePort d.instanceID d.portID :: toggleCallsFor d env
  else []

/-- The enforce-remove block of the create path (lines 223-239): under
`enforce` with a present desired set, fetch the port and detach every
currently attached group (the detach helper is only invoked when the
observed group list is nonempty). -/
def createRemovePhase (d : ResourceData) (env : Env) :
    List ApiCall × Except PortSecErr Unit :=
  if d.enforce && decide (d.securityGroupIDs ≠ ∅) then
    if observedGroupIDs env.port ≠ ∅ then
      let step := removeSecurityGroupsFromInstancePort env.knownGroups
        d.instanceID d.portID (observedGroupIDs env.port)
      (ApiCall.getNetworkPort d.instanceID d.portID :: step.1, step.2)
    else ([ApiCall.getNetworkPort d.instanceID d.portID], Except.ok ())
  else ([], Except.ok ())

/-- The assign block of the create path (lines 241-248): attach the whole
desired set when it is present. -/
def createAssignPhase (d : ResourceData) (env : Env) :
    List ApiCall × Except PortSecErr Unit :=
  if decide (d.securityGroupIDs ≠ ∅) then
    AssignSecurityGroupsToInstancePort env.knownGroups d.instanceID
      d.portID d.securityGroupIDs
  else ([], Except.ok ())

/-- The group block of the update path (lines 336-363): when the desired
set or the `enforce` flag changed, detach `updateSgsToRemove`, then attach
`updateSgsToAssign`. -/
def updateGroupPhase (d : ResourceData) (env : Env) :
    List ApiCall × Except PortSecErr Unit :=
  if decide (d.securityGroupIDsOld ≠ d.securityGroupIDs) ||
      (d.enforceOld != d.enforce) then
    seqCalls
      (removeSecurityGroupsFromInstancePort env.knownGroups d.instanceID
        d.portID (updateSgsToRemove d))
      (fun _ => AssignSecurityGroupsToInstancePort env.knownGroups
        d.instanceID d.portID (updateSgsToAssign d))
  else ([], Except.ok ())

/-- `resourceInstancePortSecurityCreate`
(`data_source_edgecenter_storage_s3.go`, lines 179-255): validate; fetch
the interface; toggle port security when the desired `disabled` flag is
the inverse of the observed flag; stop after the toggle when `disabled`;
otherwise run the enforce-remove block and the assign block, and
re-read. -/
def resourceInstancePortSecurityCreate (d : ResourceData) (env : Env) :
    List ApiCall × Except PortSecErr Unit :=
  if validatePortSecAttrs d then ([], Except.error PortSecErr.invalidAttrs)
  else if d.portSecurityDisabled then
    (ApiCall.getInterfacePort d.instanceID d.portID ::
      (toggleCallsFor d env ++ (resourceInstancePortSecurityRead d).1),
      Except.ok ())
  else
    match seqCalls (createRemovePhase d env)
        (fun _ => createAssignPhase d env) with
    | (c, Except.error e) =>
      (ApiCall.getInterfacePort d.instanceID d.portID ::
        (toggleCallsFor d env ++ c), Except.error e)
    | (c, Except.ok _) =>
      (ApiCall.getInterfacePort d.instanceID d.portID ::
        (toggleCallsFor d env ++ c ++ (resourceInstancePortSecurityRead d).1),
        Except.ok ())

/-- `resourceInstancePortSecurityUpdate`
(`data_source_edgecenter_storage_s3.go`, lines 294-372): validate; when
the `disabled` flag changed, fetch the interface and toggle; stop when
`disabled`; otherwise run the group block, then the convergence check,
and re-read. -/
def resourceInstancePortSecurityUpdate (d : ResourceData) (env : Env) :
    List ApiCall × Except PortSecErr Unit :=
  if validatePortSecAttrs d then ([], Except.error PortSecErr.invalidAttrs)
  else if d.portSecurityDisabled then
    (updateToggleCalls d env ++ (resourceInstancePortSecurityRead d).1,
      Except.ok ())
  else
    match seqCalls (updateGroupPhase d env)
        (fun _ => checkPortSecurityChangesIsApplied d env) with
    | (c, Except.error e) => (updateToggleCalls d env ++ c, Except.error e)
    | (c, Except.ok _) =>
      (updateToggleCalls d env ++ c ++ (resourceInstancePortSecurityRead d).1,
        Except.ok ())

/-- `resourceInstancePortSecurityDelete`
(`data_source_edgecenter_storage_s3.go`, lines 374-412): fetch the
interface; when port security is observed disabled, re-enable it and
return; otherwise detach the desired set when present (nonempty). -/
def resourceInstancePortSecurityDelete (d : ResourceData) (env : Env) :
    List ApiCall × Except PortSecErr Unit :=
  if !env.ifacePort.portSecurityEnabled then
    ([ApiCall.getInterfacePort d.instanceID d.portID,
      ApiCall.enablePortSecurity d.portID], Except.ok ())
  else if decide (d.securityGroupIDs = ∅) then
    ([ApiCall.getInterfacePort d.instanceID d.portID], Except.ok ())
  else
    let step := removeSecurityGroupsFromInstancePort env.knownGroups
      d.instanceID d.portID d.securityGroupIDs
    (ApiCall.getInterfacePort d.instanceID d.portID :: step.1, step.2)

/-- Is the call an attach (`SecurityGroupAssign`) call? -/
def isAttachCall : ApiCall → Bool
  | ApiCall.assignGroups _ _ _ => true
  | _ => false

/-- Is the call a detach (`SecurityGroupUnAssign`) call? -/
def isDetachCall : ApiCall → Bool
  | ApiCall.unassignGroups _ _ _ => true
  | _ => false

/-- Does the trace contain an attach call? -/
def hasAttachCall (cs : List ApiCall) : Bool := cs.any isAttachCall

/-- Does the trace contain a detach call? -/
def hasDetachCall (cs : List ApiCall) : Bool := cs.any isDetachCall

/-- Does the trace contain any security-group mutation (attach or
detach)? -/
def hasGroupMutation (cs : List ApiCall) : Bool :=
  cs.any (fun c => isAttachCall c || isDetachCall c)

/-- The dead condition of the convergence check: the set
`intersectionDiff = (observed ∩ desired) \ desired` it tests is empty for
every input, so the corresponding sentinel branch is unreachable. -/
theorem intersectionDiff_always_empty (d : ResourceData) (p : InstancePort) :
    (observedGroupIDs p ∩ d.securityGroupIDs) \ d.securityGroupIDs = ∅ :=
  Finset.sdiff_eq_empty_iff_subset.mpr Finset.inter_subset_right

theorem hasGroupMutation_eq (cs : List ApiCall) :
    hasGroupMutation cs = (hasAttachCall cs || hasDetachCall cs) := by
  induction cs with
  | nil => rfl
  | cons c cs ih =>
    simp only [hasGroupMutation, hasAttachCall, hasDetachCall, List.any_cons] at ih ⊢
    rw [ih]
    cases isAttachCall c <;> cases isDetachCall c <;> simp

theorem toggleCallsFor_no_attach (d : ResourceData) (env : Env) :
    hasAttachCall (toggleCallsFor d env) = false := by
  unfold toggleCallsFor
  split
  · rfl
  · split <;> rfl

theorem toggleCallsFor_no_detach (d : ResourceData) (env : Env) :
    hasDetachCall (toggleCallsFor d env) = false := by
  unfold toggleCallsFor
  split
  · rfl
  · split <;> rfl

theorem updateToggleCalls_no_attach (d : ResourceData) (env : Env) :
    hasAttachCall (updateToggleCalls d env) = false := by
  unfold updateToggleCalls
  split
  · simpa [hasAttachCall, isAttachCall] using toggleCallsFor_no_attach d env
  · rfl

theorem updateToggleCalls_no_detach (d : ResourceData) (env : Env) :
    hasDetachCall (updateToggleCalls d env) = false := by
  unfold updateToggleCalls
  split
  · simpa [hasDetachCall, isDetachCall] using toggleCallsFor_no_detach d env
  · rfl

theorem removeSG_no_attach (known : List SecurityGroup) (iid pid : String)
    (ids : Finset String) :
    hasAttachCall (removeSecurityGroupsFromInstancePort known iid pid ids).1 = false := by
  unfold removeSecurityGroupsFromInstancePort
  split
  · rfl
  · split <;> rfl

theorem assignSG_no_detach (known : List SecurityGroup) (iid pid : String)
    (ids : Finset String) :
    hasDetachCall (AssignSecurityGroupsToInstancePort known iid pid ids).1 = false := by
  unfold AssignSecurityGroupsToInstancePort
  split
  · rfl
  · split <;> rfl

theorem assignSG_no_attach_of_resolve_err (known : List SecurityGroup)
    (iid pid : String) (ids : Finset String) (e : String)
    (h : resolveGroupNames known ids = Except.error e) :
    hasAttachCall (AssignSecurityGroupsToInstancePort known iid pid ids).1 = false := by
  unfold AssignSecurityGroupsToInstancePort
  split
  · rfl
  · rw [h]
    rfl

theorem assignSG_mem_list (known : List SecurityGroup) (iid pid : String)
    (ids : Finset String) (h : ids ≠ ∅) :
    ApiCall.listGroupsByIDs ids ∈ (AssignSecurityGroupsToInstancePort known iid pid ids).1 := by
  unfold AssignSecurityGroupsToInstancePort
  rw [if_neg h]
  split <;> simp

theorem seqCalls_no_attach (a : List ApiCall × Except PortSecErr Unit)
    (f : Unit → List ApiCall × Except PortSecErr Unit)
    (h1 : hasAttachCall a.1 = false) (h2 : hasAttachCall (f ()).1 = false) :
    hasAttachCall (seqCalls a f).1 = false := by
  rcases a with ⟨c, r⟩
  cases r
  · exact h1
  · simp only [seqCalls, hasAttachCall, List.any_append] at h1 h2 ⊢
    rw [h1, h2]
    rfl

theorem seqCalls_no_detach (a : List ApiCall × Except PortSecErr Unit)
    (f : Unit → List ApiCall × Except PortSecErr Unit)
    (h1 : hasDetachCall a.1 = false) (h2 : hasDetachCall (f ()).1 = false) :
    hasDetachCall (seqCalls a f).1 = false := by
  rcases a with ⟨c, r⟩
  cases r
  · exact h1
  · simp only [seqCalls, hasDetachCall, List.any_append] at h1 h2 ⊢
    rw [h1, h2]
    rfl

theorem seqCalls_mem_left (a : List ApiCall × Except PortSecErr Unit)
    (f : Unit → List ApiCall × Except PortSecErr Unit) (x : ApiCall)
    (hx : x ∈ a.1) : x ∈ (seqCalls a f).1 := by
  rcases a with ⟨c, r⟩
  cases r
  · exact hx
  · simp only [seqCalls, List.mem_append]
    exact Or.inl hx

theorem seqCalls_mem_right (a : List ApiCall × Except PortSecErr Unit)
    (f : Unit → List ApiCall × Except PortSecErr Unit) (x : ApiCall)
    (ha : a.2 = Except.ok ()) (hx : x ∈ (f ()).1) : x ∈ (seqCalls a f).1 := by
  rcases a with ⟨c, r⟩
  cases r
  · simp at ha
  · simp only [seqCalls, List.mem_append]
    exact Or.inr hx

theorem check_no_attach (d : ResourceData) (env : Env) :
    hasAttachCall (checkPortSecurityChangesIsApplied d env).1 = false := by
  unfold checkPortSecurityChangesIsApplied
  split
  · rfl
  · split <;> rfl

theorem check_no_detach (d : ResourceData) (env : Env) :
    hasDetachCall (checkPortSecurityChangesIsApplied d env).1 = false := by
  unfold checkPortSecurityChangesIsApplied
  split
  · rfl
  · split <;> rfl

theorem read_no_attach (d : ResourceData) :
    hasAttachCall (resourceInstancePortSecurityRead d).1 = false := rfl

theorem read_no_detach (d : ResourceData) :
    hasDetachCall (resourceInstancePortSecurityRead d).1 = false := rfl

theorem hasAttachCall_append (a b : List ApiCall) :
    hasAttachCall (a ++ b) = (hasAttachCall a || hasAttachCall b) := by
  simp [hasAttachCall, List.any_append]

theorem hasDetachCall_append (a b : List ApiCall) :
    hasDetachCall (a ++ b) = (hasDetachCall a || hasDetachCall b) := by
  simp [hasDetachCall, List.any_append]

theorem create_no_detach (d : ResourceData) (env : Env)
    (hrp : hasDetachCall (createRemovePhase d env).1 = false) :
    hasDetachCall (resourceInstancePortSecurityCreate d env).1 = false := by
  have hassign : hasDetachCall (createAssignPhase d env).1 = false := by
    unfold createAssignPhase
    split
    · exact assignSG_no_detach _ _ _ _
    · rfl
  have hseq := seqCalls_no_detach _ (fun _ => createAssignPhase d env) hrp hassign
  have h1 := toggleCallsFor_no_detach d env
  have h2 := read_no_detach d
  unfold resourceInstancePortSecurityCreate
  split
  · rfl
  split
  · simp only [hasDetachCall] at h1 h2 ⊢
    simp [List.any_append, List.any_cons, h1, h2]
    rfl
  · rcases hs : seqCalls (createRemovePhase d env) (fun _ => createAssignPhase d env) with ⟨c, r⟩
    have hc : hasDetachCall c = false := by rw [hs] at hseq; exact hseq
    cases r
    all_goals simp only [hasDetachCall] at h1 h2 hc ⊢
    all_goals simp [List.any_append, List.any_cons, h1, h2, hc]
    all_goals rfl

theorem update_no_attach (d : ResourceData) (env : Env)
    (hgp : hasAttachCall (updateGroupPhase d env).1 = false) :
    hasAttachCall (resourceInstancePortSecurityUpdate d env).1 = false := by
  have hcheck := check_no_attach d env
  have hseq := seqCalls_no_attach _ (fun _ => checkPortSecurityChangesIsApplied d env) hgp hcheck
  have h1 := updateToggleCalls_no_attach d env
  have h2 := read_no_attach d
  unfold resourceInstancePortSecurityUpdate
  split
  · rfl
  split
  · simp only [hasAttachCall] at h1 h2 ⊢
    simp [List.any_append, List.any_cons, h1, h2]
  · rcases hs : seqCalls (updateGroupPhase d env) (fun _ => checkPortSecurityChangesIsApplied d env) with ⟨c, r⟩
    have hc : hasAttachCall c = false := by rw [hs] at hseq; exact hseq
    cases r
    all_goals simp only [hasAttachCall] at h1 h2 hc ⊢
    all_goals simp [List.any_append, List.any_cons, h1, h2, hc]

theorem update_no_detach (d : ResourceData) (env : Env)
    (hgp : hasDetachCall (updateGroupPhase d env).1 = false) :
    hasDetachCall (resourceInstancePortSecurityUpdate d env).1 = false := by
  have hcheck := check_no_detach d env
  have hseq := seqCalls_no_detach _ (fun _ => checkPortSecurityChangesIsApplied d env) hgp hcheck
  have h1 := updateToggleCalls_no_detach d env
  have h2 := read_no_detach d
  unfold resourceInstancePortSecurityUpdate
  split
  · rfl
  split
  · simp only [hasDetachCall] at h1 h2 ⊢
    simp [List.any_append, List.any_cons, h1, h2]
  · rcases hs : seqCalls (updateGroupPhase d env) (fun _ => checkPortSecurityChangesIsApplied d env) with ⟨c, r⟩
    have hc : hasDetachCall c = false := by rw [hs] at hseq; exact hseq
    cases r
    all_goals simp only [hasDetachCall] at h1 h2 hc ⊢
    all_goals simp [List.any_append, List.any_cons, h1, h2, hc]

theorem resolveGroupNames_empty_not_error (known : List SecurityGroup) (e : String) :
    resolveGroupNames known (∅ : Finset String) ≠ Except.error e := by
  unfold resolveGroupNames
  rw [Finset.filter_empty]
  simp

theorem seqCalls_of_error (a : List ApiCall × Except PortSecErr Unit)
    (f : Unit → List ApiCall × Except PortSecErr Unit) (e : PortSecErr)
    (h : a.2 = Except.error e) : seqCalls a f = a := by
  rcases a with ⟨c, r⟩
  cases r
  · rfl
  · simp at h

theorem removeSG_no_detach_of_resolve_err (known : List SecurityGroup)
    (iid pid : String) (ids : Finset String) (e : String)
    (h : resolveGroupNames known ids = Except.error e) :
    hasDetachCall (removeSecurityGroupsFromInstancePort known iid pid ids).1 = false := by
  unfold removeSecurityGroupsFromInstancePort
  split
  · rfl
  · rw [h]
    rfl

theorem removeSG_err_of_resolve_err (known : List SecurityGroup)
    (iid pid : String) (ids : Finset String) (e : String)
    (h : resolveGroupNames known ids = Except.error e) :
    (removeSecurityGroupsFromInstancePort known iid pid ids).2 =
      Except.error (PortSecErr.external e) := by
  unfold removeSecurityGroupsFromInstancePort
  split
  next hid =>
    rw [hid] at h
    exact absurd h (resolveGroupNames_empty_not_error _ _)
  · rw [h]

theorem createRemovePhase_no_attach (d : ResourceData) (env : Env) :
    hasAttachCall (createRemovePhase d env).1 = false := by
  unfold createRemovePhase
  split
  · split
    · have h := removeSG_no_attach env.knownGroups d.instanceID d.portID
        (observedGroupIDs env.port)
      simp only [hasAttachCall] at h ⊢
      simp [List.any_cons, h]
      all_goals rfl
    · rfl
  · rfl

theorem create_no_attach_of_seq (d : ResourceData) (env : Env)
    (hseq : hasAttachCall (seqCalls (createRemovePhase d env)
      (fun _ => createAssignPhase d env)).1 = false) :
    hasAttachCall (resourceInstancePortSecurityCreate d env).1 = false := by
  have h1 := toggleCallsFor_no_attach d env
  have h2 := read_no_attach d
  unfold resourceInstancePortSecurityCreate
  split
  · rfl
  split
  · simp only [hasAttachCall] at h1 h2 ⊢
    simp [List.any_append, List.any_cons, h1, h2]
    all_goals rfl
  · rcases hs : seqCalls (createRemovePhase d env) (fun _ => createAssignPhase d env) with ⟨c, r⟩
    have hc : hasAttachCall c = false := by rw [hs] at hseq; exact hseq
    cases r
    all_goals simp only [hasAttachCall] at h1 h2 hc ⊢
    all_goals simp [List.any_append, List.any_cons, h1, h2, hc]
    all_goals rfl

theorem create_no_detach_of_seq (d : ResourceData) (env : Env)
    (hseq : hasDetachCall (seqCalls (createRemovePhase d env)
      (fun _ => createAssignPhase d env)).1 = false) :
    hasDetachCall (resourceInstancePortSecurityCreate d env).1 = false := by
  have h1 := toggleCallsFor_no_detach d env
  have h2 := read_no_detach d
  unfold resourceInstancePortSecurityCreate
  split
  · rfl
  split
  · simp only [hasDetachCall] at h1 h2 ⊢
    simp [List.any_append, List.any_cons, h1, h2]
    all_goals rfl
  · rcases hs : seqCalls (createRemovePhase d env) (fun _ => createAssignPhase d env) with ⟨c, r⟩
    have hc : hasDetachCall c = false := by rw [hs] at hseq; exact hseq
    cases r
    all_goals simp only [hasDetachCall] at h1 h2 hc ⊢
    all_goals simp [List.any_append, List.any_cons, h1, h2, hc]
    all_goals rfl


/-- C7: a desired state with `port_security_disabled = true` and a nonempty
security-group set is rejected by `validatePortSecAttrs` with no external
API call issued, on both the create and the update path. -/
theorem c7_validation_rejects_before_any_call (d : ResourceData) (env : Env)
    (hdis : d.portSecurityDisabled = true)
    (hne : d.securityGroupIDs ≠ ∅) :
    resourceInstancePortSecurityCreate d env =
      ([], Except.error PortSecErr.invalidAttrs) ∧
    resourceInstancePortSecurityUpdate d env =
      ([], Except.error PortSecErr.invalidAttrs) := by
  have hv : validatePortSecAttrs d = true := by
    simp [validatePortSecAttrs, hdis, hne]
  constructor
  · unfold resourceInstancePortSecurityCreate
    rw [hv]
    rfl
  · unfold resourceInstancePortSecurityUpdate
    rw [hv]
    rfl

theorem c7_witness :
    (⟨"i", "p", false, true, false, false, ∅, {"g1"}, ∅⟩ : ResourceData).portSecurityDisabled = true ∧
    (⟨"i", "p", false, true, false, false, ∅, {"g1"}, ∅⟩ : ResourceData).securityGroupIDs ≠ ∅ ∧
    (resourceInstancePortSecurityCreate ⟨"i", "p", false, true, false, false, ∅, {"g1"}, ∅⟩
        ⟨⟨true⟩, ⟨[]⟩, [], Except.ok ⟨[]⟩, Except.ok ⟨true⟩⟩ =
      ([], Except.error PortSecErr.invalidAttrs) ∧
     resourceInstancePortSecurityUpdate ⟨"i", "p", false, true, false, false, ∅, {"g1"}, ∅⟩
        ⟨⟨true⟩, ⟨[]⟩, [], Except.ok ⟨[]⟩, Except.ok ⟨true⟩⟩ =
      ([], Except.error PortSecErr.invalidAttrs)) :=
  ⟨by decide, by decide,
    c7_validation_rejects_before_any_call _ _ (by decide) (by decide)⟩

/-- C10: a delete that observes port security disabled issues exactly the
interface fetch followed by an `EnablePortSecurity` call, returns success,
and issues no detach call. -/
theorem c10_delete_reenables_port_security (d : ResourceData) (env : Env)
    (h : env.ifacePort.portSecurityEnabled = false) :
    resourceInstancePortSecurityDelete d env =
      ([ApiCall.getInterfacePort d.instanceID d.portID,
        ApiCall.enablePortSecurity d.portID], Except.ok ()) ∧
    hasDetachCall (resourceInstancePortSecurityDelete d env).1 = false := by
  have h1 : resourceInstancePortSecurityDelete d env =
      ([ApiCall.getInterfacePort d.instanceID d.portID,
        ApiCall.enablePortSecurity d.portID], Except.ok ()) := by
    unfold resourceInstancePortSecurityDelete
    rw [h]
    rfl
  exact ⟨h1, by rw [h1]; rfl⟩

theorem c10_witness :
    (⟨⟨false⟩, ⟨[]⟩, [], Except.ok ⟨[]⟩, Except.ok ⟨false⟩⟩ : Env).ifacePort.portSecurityEnabled = false ∧
    (resourceInstancePortSecurityDelete ⟨"i", "p", false, false, false, false, ∅, {"g1"}, ∅⟩
        ⟨⟨false⟩, ⟨[]⟩, [], Except.ok ⟨[]⟩, Except.ok ⟨false⟩⟩ =
      ([ApiCall.getInterfacePort "i" "p", ApiCall.enablePortSecurity "p"], Except.ok ()) ∧
     hasDetachCall (resourceInstancePortSecurityDelete ⟨"i", "p", false, false, false, false, ∅, {"g1"}, ∅⟩
        ⟨⟨false⟩, ⟨[]⟩, [], Except.ok ⟨[]⟩, Except.ok ⟨false⟩⟩).1 = false) :=
  ⟨by decide, c10_delete_reenables_port_security _ _ (by decide)⟩

/-- C8: whenever `enforce` holds and the number of desired groups present
in the observed set (the cardinality of `observed ∩ desired`) differs from
the desired cardinality, the convergence check returns the distinguished
sentinel `InstancePortSecNotImplementedErr`, which differs from every
external (hard API) error. -/
theorem c8_enforce_count_mismatch_raises_sentinel (d : ResourceData)
    (env : Env) (p : InstancePort) (ifc : InstanceIfacePort)
    (hp : env.checkPortFetch = Except.ok p)
    (hi : env.checkIfaceFetch = Except.ok ifc)
    (henf : d.enforce = true)
    (hcount : d.securityGroupIDs.card ≠ (observedGroupIDs p ∩ d.securityGroupIDs).card) :
    (checkPortSecurityChangesIsApplied d env).2 =
      Except.error PortSecErr.notImplemented ∧
    ∀ msg, PortSecErr.notImplemented ≠ PortSecErr.external msg := by
  refine ⟨?_, fun msg hcon => by cases hcon⟩
  unfold checkPortSecurityChangesIsApplied
  rw [hp, hi]
  show checkPortSecurityLogic d p ifc = Except.error PortSecErr.notImplemented
  unfold checkPortSecurityLogic
  dsimp only
  split_ifs with h1 h2 h3
  · rfl
  · rfl
  · rfl
  · exact absurd ⟨henf, hcount⟩ h2

theorem c8_witness :
    (⟨⟨true⟩, ⟨[]⟩, [], Except.ok ⟨[]⟩, Except.ok ⟨true⟩⟩ : Env).checkPortFetch = Except.ok ⟨[]⟩ ∧
    (⟨⟨true⟩, ⟨[]⟩, [], Except.ok ⟨[]⟩, Except.ok ⟨true⟩⟩ : Env).checkIfaceFetch = Except.ok ⟨true⟩ ∧
    (⟨"i", "p", false, false, true, true, {"b"}, {"b"}, {"b"}⟩ : ResourceData).enforce = true ∧
    (⟨"i", "p", false, false, true, true, {"b"}, {"b"}, {"b"}⟩ : ResourceData).securityGroupIDs.card ≠
      (observedGroupIDs ⟨[]⟩ ∩ (⟨"i", "p", false, false, true, true, {"b"}, {"b"}, {"b"}⟩ : ResourceData).securityGroupIDs).card ∧
    ((checkPortSecurityChangesIsApplied ⟨"i", "p", false, false, true, true, {"b"}, {"b"}, {"b"}⟩
        ⟨⟨true⟩, ⟨[]⟩, [], Except.ok ⟨[]⟩, Except.ok ⟨true⟩⟩).2 =
      Except.error PortSecErr.notImplemented ∧
     ∀ msg, PortSecErr.notImplemented ≠ PortSecErr.external msg) :=
  ⟨by decide, by decide, by decide, by decide,
    c8_enforce_count_mismatch_raises_sentinel _ _ ⟨[]⟩ ⟨true⟩ (by decide) (by decide)
      (by decide) (by decide)⟩

/-- C9: a second reconciliation whose old and new desired state coincide
(same group set, same `enforce` flag) and whose stored
`all_security_group_ids` reflects the converged state computes an empty
plan (`updateSgsToAssign` and `updateSgsToRemove` both empty) and issues
no attach or detach call. -/
theorem c9_idempotent_second_apply_empty_plan (d : ResourceData) (env : Env)
    (hsgs : d.securityGroupIDsOld = d.securityGroupIDs)
    (henf : d.enforceOld = d.enforce)
    (hconv : d.enforce = true → d.allSecurityGroupIDs = d.securityGroupIDs) :
    updateSgsToAssign d = ∅ ∧ updateSgsToRemove d = ∅ ∧
    hasGroupMutation (resourceInstancePortSecurityUpdate d env).1 = false := by
  have h1 : updateSgsToAssign d = ∅ := by
    unfold updateSgsToAssign
    rw [hsgs]
    exact Finset.sdiff_self _
  have h2 : updateSgsToRemove d = ∅ := by
    unfold updateSgsToRemove
    cases he : d.enforce
    · simp only [Bool.false_eq_true, if_false]
      rw [hsgs]
      exact Finset.sdiff_self _
    · simp only [if_true]
      rw [hconv he]
      exact Finset.sdiff_self _
  have hgp : updateGroupPhase d env = ([], Except.ok ()) := by
    unfold updateGroupPhase
    rw [hsgs, henf]
    simp
  refine ⟨h1, h2, ?_⟩
  rw [hasGroupMutation_eq,
    update_no_attach d env (by rw [hgp]; rfl),
    update_no_detach d env (by rw [hgp]; rfl)]
  rfl

theorem c9_witness :
    (⟨"i", "p", false, false, true, true, {"b"}, {"b"}, {"b"}⟩ : ResourceData).securityGroupIDsOld =
      (⟨"i", "p", false, false, true, true, {"b"}, {"b"}, {"b"}⟩ : ResourceData).securityGroupIDs ∧
    (⟨"i", "p", false, false, true, true, {"b"}, {"b"}, {"b"}⟩ : ResourceData).enforceOld =
      (⟨"i", "p", false, false, true, true, {"b"}, {"b"}, {"b"}⟩ : ResourceData).enforce ∧
    (updateSgsToAssign ⟨"i", "p", false, false, true, true, {"b"}, {"b"}, {"b"}⟩ = ∅ ∧
     updateSgsToRemove ⟨"i", "p", false, false, true, true, {"b"}, {"b"}, {"b"}⟩ = ∅ ∧
     hasGroupMutation (resourceInstancePortSecurityUpdate
        ⟨"i", "p", false, false, true, true, {"b"}, {"b"}, {"b"}⟩
        ⟨⟨true⟩, ⟨[⟨"b", "gb"⟩]⟩, [⟨"b", "gb"⟩],
          Except.ok ⟨[⟨"b", "gb"⟩]⟩, Except.ok ⟨true⟩⟩).1 = false) :=
  ⟨by decide, by decide,
    c9_idempotent_second_apply_empty_plan _ _ (by decide) (by decide) (fun _ => by decide)⟩

/-- C1: counter-evaluation for the claim that a successful apply plus
convergence check under `enforce = true` leaves the observed group set
equal to the desired set: with desired set `{b}`, an apply that issues an
attach call, and a re-fetched observed set `{a, b}`, the whole update
returns success although the extra group `a` (outside the desired set)
remains attached. -/
theorem c1_update_and_check_succeed_with_extra_group :
    (resourceInstancePortSecurityUpdate
        ⟨"i", "p", false, false, true, true, ∅, {"b"}, ∅⟩
        ⟨⟨true⟩, ⟨[]⟩, [⟨"b", "gb"⟩],
          Except.ok ⟨[⟨"a", "ga"⟩, ⟨"b", "gb"⟩]⟩, Except.ok ⟨true⟩⟩).2 = Except.ok () ∧
    hasAttachCall (resourceInstancePortSecurityUpdate
        ⟨"i", "p", false, false, true, true, ∅, {"b"}, ∅⟩
        ⟨⟨true⟩, ⟨[]⟩, [⟨"b", "gb"⟩],
          Except.ok ⟨[⟨"a", "ga"⟩, ⟨"b", "gb"⟩]⟩, Except.ok ⟨true⟩⟩).1 = true ∧
    observedGroupIDs ⟨[⟨"a", "ga"⟩, ⟨"b", "gb"⟩]⟩ ≠
      (⟨"i", "p", false, false, true, true, ∅, {"b"}, ∅⟩ : ResourceData).securityGroupIDs := by
  decide

/-- C2: the extra-group condition of the convergence check can never fire:
`intersectionDiff = (observed ∩ desired) \ desired` is empty for every
input, and concretely, with observed groups `{a, b}` and desired `{b}`
(so the extra group `a` that should have been removed is still present)
the check returns success instead of the distinguished sentinel. -/
theorem c2_extra_group_condition_never_fires :
    (∀ (d : ResourceData) (p : InstancePort),
      (observedGroupIDs p ∩ d.securityGroupIDs) \ d.securityGroupIDs = ∅) ∧
    checkPortSecurityLogic ⟨"i", "p", false, false, false, false, ∅, {"b"}, ∅⟩
        ⟨[⟨"a", "ga"⟩, ⟨"b", "gb"⟩]⟩ ⟨true⟩ = Except.ok () ∧
    observedGroupIDs ⟨[⟨"a", "ga"⟩, ⟨"b", "gb"⟩]⟩ \
      (⟨"i", "p", false, false, false, false, ∅, {"b"}, ∅⟩ : ResourceData).securityGroupIDs ≠ ∅ :=
  ⟨intersectionDiff_always_empty, by decide, by decide⟩

/-- C3 counterexample: an update with `enforce = false`,
`port_security_disabled = false`, old desired set `{a}` and new desired
set `{b}` computes the nonempty removal set `{a}` and issues a detach
call, refuting the claim that non-enforcing operations never remove
groups. -/
theorem c3_counterexample_nonenforce_update_detaches :
    hasDetachCall (resourceInstancePortSecurityUpdate
        ⟨"i", "p", false, false, false, false, {"a"}, {"b"}, {"a"}⟩
        ⟨⟨true⟩, ⟨[⟨"a", "ga"⟩]⟩, [⟨"a", "ga"⟩, ⟨"b", "gb"⟩],
          Except.ok ⟨[⟨"b", "gb"⟩]⟩, Except.ok ⟨true⟩⟩).1 = true ∧
    updateSgsToRemove ⟨"i", "p", false, false, false, false, {"a"}, {"b"}, {"a"}⟩ ≠ ∅ := by
  decide

/-- C3 (amended): on the create path a non-enforcing apply never issues a
detach call; on the update path the non-enforcing removal set is not
empty in general but equals the old desired set minus the new one, so a
group is detached exactly when it was dropped from the previous desired
state, and only groups never listed there are preserved unconditionally. -/
theorem c3_amended_nonenforce_removal_policy (d : ResourceData) (env : Env)
    (h : d.enforce = false) :
    hasDetachCall (resourceInstancePortSecurityCreate d env).1 = false ∧
    updateSgsToRemove d = d.securityGroupIDsOld \ d.securityGroupIDs := by
  constructor
  · apply create_no_detach
    unfold createRemovePhase
    rw [h]
    rfl
  · unfold updateSgsToRemove
    rw [h]
    rfl

theorem c3_amended_witness :
    (⟨"i", "p", false, false, false, false, {"a"}, {"b"}, {"a"}⟩ : ResourceData).enforce = false ∧
    (hasDetachCall (resourceInstancePortSecurityCreate
        ⟨"i", "p", false, false, false, false, {"a"}, {"b"}, {"a"}⟩
        ⟨⟨true⟩, ⟨[⟨"a", "ga"⟩]⟩, [⟨"a", "ga"⟩, ⟨"b", "gb"⟩],
          Except.ok ⟨[⟨"b", "gb"⟩]⟩, Except.ok ⟨true⟩⟩).1 = false ∧
     updateSgsToRemove ⟨"i", "p", false, false, false, false, {"a"}, {"b"}, {"a"}⟩ =
       (⟨"i", "p", false, false, false, false, {"a"}, {"b"}, {"a"}⟩ : ResourceData).securityGroupIDsOld \
         (⟨"i", "p", false, false, false, false, {"a"}, {"b"}, {"a"}⟩ : ResourceData).securityGroupIDs) :=
  ⟨by decide, c3_amended_nonenforce_removal_policy _ _ (by decide)⟩

/-- C4 counterexample: an update whose removal set `{a}` resolves and is
detached, and whose attach set `{g}` then fails to resolve, aborts with
the resolution error only after the detach call was already issued: the
plan is partially applied, refuting "a resolution failure never leaves a
partial application". -/
theorem c4_counterexample_partial_application :
    (resourceInstancePortSecurityUpdate
        ⟨"i", "p", false, false, false, false, {"a"}, {"g"}, {"a"}⟩
        ⟨⟨true⟩, ⟨[]⟩, [⟨"a", "ga"⟩], Except.ok ⟨[]⟩, Except.ok ⟨true⟩⟩).2 =
      Except.error (PortSecErr.external "unknown security group id") ∧
    hasDetachCall (resourceInstancePortSecurityUpdate
        ⟨"i", "p", false, false, false, false, {"a"}, {"g"}, {"a"}⟩
        ⟨⟨true⟩, ⟨[]⟩, [⟨"a", "ga"⟩], Except.ok ⟨[]⟩, Except.ok ⟨true⟩⟩).1 = true := by
  decide

/-- C4 (amended): a resolution failure aborts before the failing phase's
own mutation, on both the create and the update path: a failure to
resolve the removal-phase IDs aborts before any attach or detach call is
issued, and a failure to resolve the to-add IDs means no attach call is
ever issued — but the detach call of a successful removal phase precedes
to-add resolution, so a to-add resolution failure can leave the plan
partially applied (see the counterexample). -/
theorem c4_amended_resolution_failure_aborts_failing_phase
    (d : ResourceData) (env : Env) :
    ((∀ e, resolveGroupNames env.knownGroups (updateSgsToRemove d) = Except.error e →
        hasAttachCall (resourceInstancePortSecurityUpdate d env).1 = false ∧
        hasDetachCall (resourceInstancePortSecurityUpdate d env).1 = false) ∧
      (∀ e, resolveGroupNames env.knownGroups (updateSgsToAssign d) = Except.error e →
        hasAttachCall (resourceInstancePortSecurityUpdate d env).1 = false)) ∧
    ((d.enforce = true → d.securityGroupIDs ≠ ∅ →
        ∀ e, resolveGroupNames env.knownGroups (observedGroupIDs env.port) = Except.error e →
        hasAttachCall (resourceInstancePortSecurityCreate d env).1 = false ∧
        hasDetachCall (resourceInstancePortSecurityCreate d env).1 = false) ∧
      (∀ e, resolveGroupNames env.knownGroups d.securityGroupIDs = Except.error e →
        hasAttachCall (resourceInstancePortSecurityCreate d env).1 = false)) := by
  refine ⟨⟨?_, ?_⟩, ?_, ?_⟩
  · intro e hres
    have hrm := removeSG_err_of_resolve_err env.knownGroups d.instanceID d.portID _ e hres
    constructor
    · apply update_no_attach
      unfold updateGroupPhase
      split
      · rw [seqCalls_of_error _ _ _ hrm]
        exact removeSG_no_attach _ _ _ _
      · rfl
    · apply update_no_detach
      unfold updateGroupPhase
      split
      · rw [seqCalls_of_error _ _ _ hrm]
        exact removeSG_no_detach_of_resolve_err _ _ _ _ _ hres
      · rfl
  · intro e hres
    apply update_no_attach
    unfold updateGroupPhase
    split
    · apply seqCalls_no_attach
      · exact removeSG_no_attach _ _ _ _
      · exact assignSG_no_attach_of_resolve_err _ _ _ _ _ hres
    · rfl
  · intro henf hsgs e hres
    have hobs : observedGroupIDs env.port ≠ ∅ := by
      intro h0
      rw [h0] at hres
      exact resolveGroupNames_empty_not_error _ _ hres
    have hrm := removeSG_err_of_resolve_err env.knownGroups d.instanceID d.portID _ e hres
    have hrp : createRemovePhase d env =
        (ApiCall.getNetworkPort d.instanceID d.portID ::
          (removeSecurityGroupsFromInstancePort env.knownGroups d.instanceID
            d.portID (observedGroupIDs env.port)).1,
         (removeSecurityGroupsFromInstancePort env.knownGroups d.instanceID
            d.portID (observedGroupIDs env.port)).2) := by
      unfold createRemovePhase
      rw [if_pos (by simp [henf, hsgs]), if_pos hobs]
    have hseqe : seqCalls (createRemovePhase d env)
        (fun _ => createAssignPhase d env) = createRemovePhase d env := by
      apply seqCalls_of_error _ _ (PortSecErr.external e)
      rw [hrp]
      exact hrm
    constructor
    · apply create_no_attach_of_seq
      rw [hseqe, hrp]
      have h := removeSG_no_attach env.knownGroups d.instanceID d.portID
        (observedGroupIDs env.port)
      simp only [hasAttachCall] at h ⊢
      simp [List.any_cons, h]
      all_goals rfl
    · apply create_no_detach_of_seq
      rw [hseqe, hrp]
      have h := removeSG_no_detach_of_resolve_err env.knownGroups d.instanceID
        d.portID _ e hres
      simp only [hasDetachCall] at h ⊢
      simp [List.any_cons, h]
      all_goals rfl
  · intro e hres
    apply create_no_attach_of_seq
    apply seqCalls_no_attach
    · exact createRemovePhase_no_attach d env
    · unfold createAssignPhase
      split
      · exact assignSG_no_attach_of_resolve_err _ _ _ _ _ hres
      · rfl

theorem c4_amended_witness :
    resolveGroupNames ([] : List SecurityGroup)
      (updateSgsToRemove ⟨"i", "p", false, false, false, true, {"a"}, {"g"}, {"x"}⟩) =
      Except.error "unknown security group id" ∧
    resolveGroupNames ([] : List SecurityGroup)
      (updateSgsToAssign ⟨"i", "p", false, false, false, true, {"a"}, {"g"}, {"x"}⟩) =
      Except.error "unknown security group id" ∧
    (⟨"i", "p", false, false, false, true, {"a"}, {"g"}, {"x"}⟩ : ResourceData).enforce = true ∧
    (⟨"i", "p", false, false, false, true, {"a"}, {"g"}, {"x"}⟩ : ResourceData).securityGroupIDs ≠ ∅ ∧
    resolveGroupNames ([] : List SecurityGroup)
      (observedGroupIDs (⟨⟨true⟩, ⟨[⟨"o", "no"⟩]⟩, [], Except.ok ⟨[]⟩, Except.ok ⟨true⟩⟩ : Env).port) =
      Except.error "unknown security group id" ∧
    resolveGroupNames ([] : List SecurityGroup)
      (⟨"i", "p", false, false, false, true, {"a"}, {"g"}, {"x"}⟩ : ResourceData).securityGroupIDs =
      Except.error "unknown security group id" ∧
    (hasAttachCall (resourceInstancePortSecurityUpdate
        ⟨"i", "p", false, false, false, true, {"a"}, {"g"}, {"x"}⟩
        ⟨⟨true⟩, ⟨[⟨"o", "no"⟩]⟩, [], Except.ok ⟨[]⟩, Except.ok ⟨true⟩⟩).1 = false ∧
     hasDetachCall (resourceInstancePortSecurityUpdate
        ⟨"i", "p", false, false, false, true, {"a"}, {"g"}, {"x"}⟩
        ⟨⟨true⟩, ⟨[⟨"o", "no"⟩]⟩, [], Except.ok ⟨[]⟩, Except.ok ⟨true⟩⟩).1 = false ∧
     hasAttachCall (resourceInstancePortSecurityCreate
        ⟨"i", "p", false, false, false, true, {"a"}, {"g"}, {"x"}⟩
        ⟨⟨true⟩, ⟨[⟨"o", "no"⟩]⟩, [], Except.ok ⟨[]⟩, Except.ok ⟨true⟩⟩).1 = false ∧
     hasDetachCall (resourceInstancePortSecurityCreate
        ⟨"i", "p", false, false, false, true, {"a"}, {"g"}, {"x"}⟩
        ⟨⟨true⟩, ⟨[⟨"o", "no"⟩]⟩, [], Except.ok ⟨[]⟩, Except.ok ⟨true⟩⟩).1 = false) :=
  ⟨by decide, by decide, by decide, by decide, by decide, by decide,
    ((c4_amended_resolution_failure_aborts_failing_phase
        ⟨"i", "p", false, false, false, true, {"a"}, {"g"}, {"x"}⟩
        ⟨⟨true⟩, ⟨[⟨"o", "no"⟩]⟩, [], Except.ok ⟨[]⟩, Except.ok ⟨true⟩⟩).1.1
      "unknown security group id" (by decide)).1,
    ((c4_amended_resolution_failure_aborts_failing_phase
        ⟨"i", "p", false, false, false, true, {"a"}, {"g"}, {"x"}⟩
        ⟨⟨true⟩, ⟨[⟨"o", "no"⟩]⟩, [], Except.ok ⟨[]⟩, Except.ok ⟨true⟩⟩).1.1
      "unknown security group id" (by decide)).2,
    ((c4_amended_resolution_failure_aborts_failing_phase
        ⟨"i", "p", false, false, false, true, {"a"}, {"g"}, {"x"}⟩
        ⟨⟨true⟩, ⟨[⟨"o", "no"⟩]⟩, [], Except.ok ⟨[]⟩, Except.ok ⟨true⟩⟩).2.1
      (by decide) (by decide) "unknown security group id" (by decide)).1,
    ((c4_amended_resolution_failure_aborts_failing_phase
        ⟨"i", "p", false, false, false, true, {"a"}, {"g"}, {"x"}⟩
        ⟨⟨true⟩, ⟨[⟨"o", "no"⟩]⟩, [], Except.ok ⟨[]⟩, Except.ok ⟨true⟩⟩).2.1
      (by decide) (by decide) "unknown security group id" (by decide)).2⟩

/-- C5 counterexample: (i) an update whose desired `disabled` flag was
already true in the old state (so `HasChange` is false) issues no disable
call although port security is observed enabled; (ii) a create with
`disabled = true` and a nonempty group set is rejected at validation and
issues no disable call either — refuting "issues a disable call ...
regardless of any supplied group IDs". -/
theorem c5_counterexample_no_disable_call :
    ApiCall.disablePortSecurity "p" ∉ (resourceInstancePortSecurityUpdate
        ⟨"i", "p", true, true, false, false, ∅, ∅, ∅⟩
        ⟨⟨true⟩, ⟨[]⟩, [], Except.ok ⟨[]⟩, Except.ok ⟨false⟩⟩).1 ∧
    resourceInstancePortSecurityCreate
        ⟨"i", "p", false, true, false, false, ∅, {"g1"}, ∅⟩
        ⟨⟨true⟩, ⟨[]⟩, [], Except.ok ⟨[]⟩, Except.ok ⟨false⟩⟩ =
      ([], Except.error PortSecErr.invalidAttrs) := by
  decide

/-- C5 (amended): when the desired state has `disabled = true`, an empty
desired group set (a nonempty one is rejected at validation first) and
port security is observed enabled, the create path — and the update path
provided the `disabled` flag actually changed — issues a disable call and
no attach or detach call. -/
theorem c5_amended_disable_then_skip_groups (d : ResourceData) (env : Env)
    (hdis : d.portSecurityDisabled = true)
    (hsgs : d.securityGroupIDs = ∅)
    (hen : env.ifacePort.portSecurityEnabled = true) :
    (ApiCall.disablePortSecurity d.portID ∈
        (resourceInstancePortSecurityCreate d env).1 ∧
      hasGroupMutation (resourceInstancePortSecurityCreate d env).1 = false) ∧
    (d.portSecurityDisabledOld = false →
      ApiCall.disablePortSecurity d.portID ∈
        (resourceInstancePortSecurityUpdate d env).1 ∧
      hasGroupMutation (resourceInstancePortSecurityUpdate d env).1 = false) := by
  have hval : validatePortSecAttrs d = false := by
    simp [validatePortSecAttrs, hsgs]
  have htog : toggleCallsFor d env = [ApiCall.disablePortSecurity d.portID] := by
    unfold toggleCallsFor
    rw [hdis, hen]
    rfl
  have hcreate : resourceInstancePortSecurityCreate d env =
      (ApiCall.getInterfacePort d.instanceID d.portID ::
        ([ApiCall.disablePortSecurity d.portID] ++
          (resourceInstancePortSecurityRead d).1), Except.ok ()) := by
    unfold resourceInstancePortSecurityCreate
    rw [hval, hdis, htog]
    rfl
  constructor
  · rw [hcreate]
    exact ⟨by simp, rfl⟩
  · intro hold
    have hut : updateToggleCalls d env =
        ApiCall.getInterfacePort d.instanceID d.portID ::
          [ApiCall.disablePortSecurity d.portID] := by
      unfold updateToggleCalls
      rw [hold, hdis, htog]
      rfl
    have hupd : resourceInstancePortSecurityUpdate d env =
        ((ApiCall.getInterfacePort d.instanceID d.portID ::
          [ApiCall.disablePortSecurity d.portID]) ++
          (resourceInstancePortSecurityRead d).1, Except.ok ()) := by
      unfold resourceInstancePortSecurityUpdate
      rw [hval, hdis, hut]
      rfl
    rw [hupd]
    exact ⟨by simp, rfl⟩

theorem c5_amended_witness :
    (⟨"i", "p", false, true, false, false, ∅, ∅, ∅⟩ : ResourceData).portSecurityDisabled = true ∧
    (⟨"i", "p", false, true, false, false, ∅, ∅, ∅⟩ : ResourceData).securityGroupIDs = ∅ ∧
    (⟨⟨true⟩, ⟨[]⟩, [], Except.ok ⟨[]⟩, Except.ok ⟨false⟩⟩ : Env).ifacePort.portSecurityEnabled = true ∧
    ((ApiCall.disablePortSecurity "p" ∈
        (resourceInstancePortSecurityCreate ⟨"i", "p", false, true, false, false, ∅, ∅, ∅⟩
          ⟨⟨true⟩, ⟨[]⟩, [], Except.ok ⟨[]⟩, Except.ok ⟨false⟩⟩).1 ∧
      hasGroupMutation (resourceInstancePortSecurityCreate
          ⟨"i", "p", false, true, false, false, ∅, ∅, ∅⟩
          ⟨⟨true⟩, ⟨[]⟩, [], Except.ok ⟨[]⟩, Except.ok ⟨false⟩⟩).1 = false) ∧
     ((⟨"i", "p", false, true, false, false, ∅, ∅, ∅⟩ : ResourceData).portSecurityDisabledOld = false →
      ApiCall.disablePortSecurity "p" ∈
        (resourceInstancePortSecurityUpdate ⟨"i", "p", false, true, false, false, ∅, ∅, ∅⟩
          ⟨⟨true⟩, ⟨[]⟩, [], Except.ok ⟨[]⟩, Except.ok ⟨false⟩⟩).1 ∧
      hasGroupMutation (resourceInstancePortSecurityUpdate
          ⟨"i", "p", false, true, false, false, ∅, ∅, ∅⟩
          ⟨⟨true⟩, ⟨[]⟩, [], Except.ok ⟨[]⟩, Except.ok ⟨false⟩⟩).1 = false)) :=
  ⟨by decide, by decide, by decide,
    c5_amended_disable_then_skip_groups _ _ (by decide) (by decide) (by decide)⟩

/-- C6 counterexample: with old desired set `{a, b}`, new desired set
`{b}` and an API-observed current set that is empty, the claim's attach
set `desired \ observed = {b}` is nonempty, yet the update issues no
attach call at all: the attach set is computed against the previous
desired state, not against the observed current set. -/
theorem c6_counterexample_attach_set_ignores_observed :
    hasAttachCall (resourceInstancePortSecurityUpdate
        ⟨"i", "p", false, false, false, false, {"a", "b"}, {"b"}, ∅⟩
        ⟨⟨true⟩, ⟨[]⟩, [⟨"a", "ga"⟩, ⟨"b", "gb"⟩],
          Except.ok ⟨[]⟩, Except.ok ⟨true⟩⟩).1 = false ∧
    (⟨"i", "p", false, false, false, false, {"a", "b"}, {"b"}, ∅⟩ : ResourceData).securityGroupIDs \
      observedGroupIDs (⟨⟨true⟩, ⟨[]⟩, [⟨"a", "ga"⟩, ⟨"b", "gb"⟩],
          Except.ok ⟨[]⟩, Except.ok ⟨true⟩⟩ : Env).port ≠ ∅ := by
  decide

/-- C6 (amended): the attach set of the update is
`updateSgsToAssign = desired \ oldDesired` (the previous Terraform state),
not `desired \ observed`: whenever validation passes, the desired set
changed, the removal phase succeeds and `desired \ oldDesired` is
nonempty, the update issues the attachment resolution call for exactly
`desired \ oldDesired`. -/
theorem c6_amended_attach_set_from_prior_state (d : ResourceData) (env : Env)
    (hval : validatePortSecAttrs d = false)
    (hdis : d.portSecurityDisabled = false)
    (hch : d.securityGroupIDsOld ≠ d.securityGroupIDs)
    (hne : d.securityGroupIDs \ d.securityGroupIDsOld ≠ ∅)
    (hrem : (removeSecurityGroupsFromInstancePort env.knownGroups d.instanceID
        d.portID (updateSgsToRemove d)).2 = Except.ok ()) :
    updateSgsToAssign d = d.securityGroupIDs \ d.securityGroupIDsOld ∧
    ApiCall.listGroupsByIDs (updateSgsToAssign d) ∈
      (resourceInstancePortSecurityUpdate d env).1 := by
  refine ⟨rfl, ?_⟩
  have hmem : ApiCall.listGroupsByIDs (updateSgsToAssign d) ∈
      (updateGroupPhase d env).1 := by
    unfold updateGroupPhase
    rw [if_pos (by simp [hch])]
    exact seqCalls_mem_right _ _ _ hrem (assignSG_mem_list _ _ _ _ hne)
  have hmem2 : ApiCall.listGroupsByIDs (updateSgsToAssign d) ∈
      (seqCalls (updateGroupPhase d env)
        (fun _ => checkPortSecurityChangesIsApplied d env)).1 :=
    seqCalls_mem_left _ _ _ hmem
  unfold resourceInstancePortSecurityUpdate
  split
  next h => simp [hval] at h
  split
  next h => simp [hdis] at h
  rcases hs : seqCalls (updateGroupPhase d env)
      (fun _ => checkPortSecurityChangesIsApplied d env) with ⟨c, r⟩
  have hc : ApiCall.listGroupsByIDs (updateSgsToAssign d) ∈ c := by
    rw [hs] at hmem2
    exact hmem2
  cases r
  · simp [List.mem_append, hc]
  · simp [List.mem_append, hc]

theorem c6_amended_witness :
    validatePortSecAttrs ⟨"i", "p", false, false, false, false, {"a"}, {"a", "b"}, ∅⟩ = false ∧
    (⟨"i", "p", false, false, false, false, {"a"}, {"a", "b"}, ∅⟩ : ResourceData).portSecurityDisabled = false ∧
    (⟨"i", "p", false, false, false, false, {"a"}, {"a", "b"}, ∅⟩ : ResourceData).securityGroupIDsOld ≠
      (⟨"i", "p", false, false, false, false, {"a"}, {"a", "b"}, ∅⟩ : ResourceData).securityGroupIDs ∧
    (⟨"i", "p", false, false, false, false, {"a"}, {"a", "b"}, ∅⟩ : ResourceData).securityGroupIDs \
      (⟨"i", "p", false, false, false, false, {"a"}, {"a", "b"}, ∅⟩ : ResourceData).securityGroupIDsOld ≠ ∅ ∧
    (removeSecurityGroupsFromInstancePort [⟨"a", "ga"⟩, ⟨"b", "gb"⟩] "i" "p"
      (updateSgsToRemove ⟨"i", "p", false, false, false, false, {"a"}, {"a", "b"}, ∅⟩)).2 = Except.ok () ∧
    (updateSgsToAssign ⟨"i", "p", false, false, false, false, {"a"}, {"a", "b"}, ∅⟩ =
      (⟨"i", "p", false, false, false, false, {"a"}, {"a", "b"}, ∅⟩ : ResourceData).securityGroupIDs \
        (⟨"i", "p", false, false, false, false, {"a"}, {"a", "b"}, ∅⟩ : ResourceData).securityGroupIDsOld ∧
     ApiCall.listGroupsByIDs (updateSgsToAssign ⟨"i", "p", false, false, false, false, {"a"}, {"a", "b"}, ∅⟩) ∈
      (resourceInstancePortSecurityUpdate ⟨"i", "p", false, false, false, false, {"a"}, {"a", "b"}, ∅⟩
        ⟨⟨true⟩, ⟨[⟨"a", "ga"⟩]⟩, [⟨"a", "ga"⟩, ⟨"b", "gb"⟩],
          Except.ok ⟨[⟨"a", "ga"⟩, ⟨"b", "gb"⟩]⟩, Except.ok ⟨true⟩⟩).1) :=
  ⟨by decide, by decide, by decide, by decide, by decide,
    c6_amended_attach_set_from_prior_state _ _ (by decide) (by decide) (by decide)
      (by decide) (by decide)⟩
